import Mathlib

/-!
Verification development for `GDRT/raster/image_registration.py`.

The file embeds the arithmetic and control flow of the two functions
`cv2_feature_matcher` and `align_two_rasters` into Lean.  Matrices are 3 by 3
over the rationals (the source works with numpy float arrays; exact rational
arithmetic captures the algebraic structure of the compositions).  External
library calls (SIFT detection, FLANN matching, RANSAC fitting, raster I/O,
plotting) are abstracted as parameters: the embedding starts where the source
manipulates their results.
-/

namespace GDRT

/-- A 3 by 3 matrix, row major, modelling the numpy arrays used as homogeneous
transforms in `image_registration.py`. -/
structure Mat3 where
  m00 : ℚ
  m01 : ℚ
  m02 : ℚ
  m10 : ℚ
  m11 : ℚ
  m12 : ℚ
  m20 : ℚ
  m21 : ℚ
  m22 : ℚ
deriving DecidableEq, Repr

/-- Matrix product, modelling the `@` operator on 3 by 3 numpy arrays. -/
def Mat3.mul (A B : Mat3) : Mat3 :=
  ⟨A.m00 * B.m00 + A.m01 * B.m10 + A.m02 * B.m20,
   A.m00 * B.m01 + A.m01 * B.m11 + A.m02 * B.m21,
   A.m00 * B.m02 + A.m01 * B.m12 + A.m02 * B.m22,
   A.m10 * B.m00 + A.m11 * B.m10 + A.m12 * B.m20,
   A.m10 * B.m01 + A.m11 * B.m11 + A.m12 * B.m21,
   A.m10 * B.m02 + A.m11 * B.m12 + A.m12 * B.m22,
   A.m20 * B.m00 + A.m21 * B.m10 + A.m22 * B.m20,
   A.m20 * B.m01 + A.m21 * B.m11 + A.m22 * B.m21,
   A.m20 * B.m02 + A.m21 * B.m12 + A.m22 * B.m22⟩

/-- The identity matrix. -/
def Mat3.one : Mat3 := ⟨1, 0, 0, 0, 1, 0, 0, 0, 1⟩

/-- Determinant by cofactor expansion along the first row. -/
def Mat3.det (M : Mat3) : ℚ :=
  M.m00 * (M.m11 * M.m22 - M.m12 * M.m21)
    - M.m01 * (M.m10 * M.m22 - M.m12 * M.m20)
    + M.m02 * (M.m10 * M.m21 - M.m11 * M.m20)

/-- Model of `np.linalg.inv` on a 3 by 3 matrix: in exact arithmetic the LU
factorisation fails (raising `LinAlgError` with message Singular matrix) iff
the determinant is zero, and otherwise the result is the adjugate divided by
the determinant. -/
def np_inv (M : Mat3) : Option Mat3 :=
  if M.det = 0 then none
  else some
    ⟨(M.m11 * M.m22 - M.m12 * M.m21) / M.det,
     (M.m02 * M.m21 - M.m01 * M.m22) / M.det,
     (M.m01 * M.m12 - M.m02 * M.m11) / M.det,
     (M.m12 * M.m20 - M.m10 * M.m22) / M.det,
     (M.m00 * M.m22 - M.m02 * M.m20) / M.det,
     (M.m02 * M.m10 - M.m00 * M.m12) / M.det,
     (M.m10 * M.m21 - M.m11 * M.m20) / M.det,
     (M.m01 * M.m20 - M.m00 * M.m21) / M.det,
     (M.m00 * M.m11 - M.m01 * M.m10) / M.det⟩

/-- Bottom row is exactly `[0, 0, 1]`: the affine invariant of the spec. -/
def Mat3.isAffine (M : Mat3) : Prop :=
  M.m20 = 0 ∧ M.m21 = 0 ∧ M.m22 = 1

instance (M : Mat3) : Decidable M.isAffine := by
  unfold Mat3.isAffine; infer_instance

/-- A 2 by 3 affine matrix, modelling the output `M` of
`cv2.estimateAffinePartial2D` before the source appends the bottom row. -/
structure Aff2 where
  a00 : ℚ
  a01 : ℚ
  a02 : ℚ
  a10 : ℚ
  a11 : ℚ
  a12 : ℚ
deriving DecidableEq, Repr

/-- Line 48 of the source:
`M = np.concatenate((M, np.array([[0, 0, 1]])))`. -/
def embed_affine (A : Aff2) : Mat3 :=
  ⟨A.a00, A.a01, A.a02, A.a10, A.a11, A.a12, 0, 0, 1⟩

/-- Branch structure of `cv2_feature_matcher` (lines 32-72).  `good` is the
number of correspondences surviving the Lowe ratio test (the length of the
`good` list built from the external FLANN matches) and `fit` is the 2 by 3
affine returned by the external RANSAC estimator.  The source returns the
embedded 3 by 3 matrix when `len(good) > min_match_count` and otherwise
prints a diagnostic and returns `None`. -/
def cv2_feature_matcher (good min_match_count : ℕ) (fit : Aff2) : Option Mat3 :=
  if good > min_match_count then some (embed_affine fit) else none

/-- The ways the composition block of `align_two_rasters` can abort:
`linAlgSingular` models `numpy.linalg.LinAlgError` raised by `np.linalg.inv`
on a singular matrix; `typeErrorNone` models the Python `TypeError` raised by
`w2d_px_transform @ None` when the aligner returned `None`;
`alignmentFailure` models the typed alignment-failure value described by the
spec, which no code path produces. -/
inductive RegErr where
  | linAlgSingular : RegErr
  | typeErrorNone : RegErr
  | alignmentFailure : RegErr
deriving DecidableEq, Repr

/-- Lines 142-167 of `align_two_rasters`, after the two crop loads returned
`moving_window_transform` (`w`) and `moving_dataset_transform` (`d`) and the
aligner returned `chip2chip` (`None` on failure).  Evaluation order follows
the source: line 147 inverts `d` first, line 150 multiplies
`w2d_px_transform @ chip2chip` (raising `TypeError` when `chip2chip` is
`None`) before inverting `w2d_px_transform`, and line 154 left-multiplies by
`d`.  The final matrix is returned at line 167. -/
def align_two_rasters_math (w d : Mat3) (chip2chip : Option Mat3) :
    Except RegErr Mat3 :=
  match np_inv d with
  | none => .error .linAlgSingular
  | some dinv =>
    let w2d_px_transform := dinv.mul w
    match chip2chip with
    | none => .error .typeErrorNone
    | some c =>
      match np_inv w2d_px_transform with
      | none => .error .linAlgSingular
      | some w2dinv =>
        let dataset_pixel_transform := (w2d_px_transform.mul c).mul w2dinv
        .ok (d.mul dataset_pixel_transform)

/-- Lines 147-152 in isolation: the dataset-pixel-space correction
`w2d_px_transform @ chip2chip_pixel_transform @ inv(w2d_px_transform)` with
`w2d_px_transform = inv(moving_dataset_transform) @ moving_window_transform`,
or `none` when an inversion fails. -/
def datasetPixelCorrection (w d c : Mat3) : Option Mat3 :=
  match np_inv d with
  | none => none
  | some dinv =>
    let w2d_px_transform := dinv.mul w
    match np_inv w2d_px_transform with
    | none => none
    | some w2dinv => some ((w2d_px_transform.mul c).mul w2dinv)

/-- The six coefficients of a rasterio `Affine` georeferencing transform:
`x = a * col + b * row + c` and `y = d * col + e * row + f`, so `c` is the
x (easting) translation and `f` is the y (northing) translation. -/
structure AffineGeo where
  a : ℚ
  b : ℚ
  c : ℚ
  d : ℚ
  e : ℚ
  f : ℚ
deriving DecidableEq, Repr

/-- The CRS metadata of an opened raster dataset: whether it is projected,
plus an opaque identifier distinguishing CRS values. -/
structure DatasetCRS where
  is_projected : Bool
  ident : ℕ
deriving DecidableEq, Repr

/-- The part of an opened fixed dataset read by lines 100-107: its CRS and
its georeferencing transform. -/
structure FixedDatasetInfo where
  crs : DatasetCRS
  transform : AffineGeo
deriving DecidableEq, Repr

/-- The working CRS chosen by lines 99-107: either the fixed dataset's own
CRS, or the result of the external `get_projected_CRS`, recorded here
together with the arguments the source passes to its `lat` and `lon`
keyword parameters. -/
inductive WorkingCRS where
  | native : DatasetCRS → WorkingCRS
  | projectedFrom (lat lon : ℚ) : WorkingCRS
deriving DecidableEq, Repr

/-- Lines 99-107: use the fixed dataset's CRS when it is projected, and
otherwise call `get_projected_CRS(lat=fixed_dataset.transform.c,
lon=fixed_dataset.transform.f)`. -/
def choose_working_CRS (fixed : FixedDatasetInfo) : WorkingCRS :=
  if fixed.crs.is_projected then .native fixed.crs
  else .projectedFrom fixed.transform.c fixed.transform.f

/-- The arguments `align_two_rasters` passes to one `load_geospatial_crop`
call (filenames and regions of interest are opaque identifiers). -/
structure CropCallArgs where
  filename : ℕ
  region_of_interest : ℕ
  target_CRS : WorkingCRS
  target_GSD : Option ℚ
deriving DecidableEq, Repr

/-- Lines 99-127: the pair of `load_geospatial_crop` calls issued for the
fixed and the moving raster, sharing the working CRS, the region of interest
and the target GSD. -/
def align_crop_calls (fixed_filename moving_filename roi : ℕ)
    (fixed : FixedDatasetInfo) (target_GSD : Option ℚ) :
    CropCallArgs × CropCallArgs :=
  let working_CRS := choose_working_CRS fixed
  (⟨fixed_filename, roi, working_CRS, target_GSD⟩,
   ⟨moving_filename, roi, working_CRS, target_GSD⟩)

/-- The state of one raster file on disk: an opaque pixel payload, opaque
non-transform metadata (CRS and the rest), and the six-coefficient affine
georeferencing transform. -/
structure RasterFile where
  pixels : ℕ
  meta : ℕ
  transform : AffineGeo
deriving DecidableEq, Repr

/-- Line 166: `updated_moving_dataset_transform[:2].flatten()` passed to
`rio.guard_transform`, i.e. the top two rows of the 3 by 3 matrix read as the
six coefficients of a rasterio `Affine`. -/
def topTwoRows (M : Mat3) : AffineGeo :=
  ⟨M.m00, M.m01, M.m02, M.m10, M.m11, M.m12⟩

/-- Lines 158-166 of `align_two_rasters`, modelling the filesystem as a map
from path identifiers to file states.  If no file exists at the output path,
`shutil.copy` duplicates the moving raster there (failing when the moving
file is missing); then the file is opened in `r+` mode (failing when still
missing) and only its `transform` attribute is assigned.  `none` models an
I/O exception. -/
def write_output (fs : ℕ → Option RasterFile) (moving_filename output_filename : ℕ)
    (updated : Mat3) : Option (ℕ → Option RasterFile) :=
  let copied : Option (ℕ → Option RasterFile) :=
    if (fs output_filename).isSome then some fs
    else
      match fs moving_filename with
      | none => none
      | some r => some (fun p => if p = output_filename then some r else fs p)
  match copied with
  | none => none
  | some fs1 =>
    match fs1 output_filename with
    | none => none
    | some r =>
      some (fun p =>
        if p = output_filename then some ⟨r.pixels, r.meta, topTwoRows updated⟩
        else fs1 p)

/-! Algebraic lemmas about the matrix model. -/

theorem Mat3.mul_assoc (A B C : Mat3) : (A.mul B).mul C = A.mul (B.mul C) := by
  simp only [Mat3.mul, Mat3.mk.injEq]
  refine ⟨?_, ?_, ?_, ?_, ?_, ?_, ?_, ?_, ?_⟩ <;> ring

theorem Mat3.mul_one (A : Mat3) : A.mul Mat3.one = A := by
  simp only [Mat3.mul, Mat3.one]
  cases A
  simp only [Mat3.mk.injEq]
  refine ⟨?_, ?_, ?_, ?_, ?_, ?_, ?_, ?_, ?_⟩ <;> ring

theorem Mat3.one_mul (A : Mat3) : Mat3.one.mul A = A := by
  simp only [Mat3.mul, Mat3.one]
  cases A
  simp only [Mat3.mk.injEq]
  refine ⟨?_, ?_, ?_, ?_, ?_, ?_, ?_, ?_, ?_⟩ <;> ring

theorem np_inv_eq_some_iff (M N : Mat3) :
    np_inv M = some N ↔ M.det ≠ 0 ∧
      N = ⟨(M.m11 * M.m22 - M.m12 * M.m21) / M.det,
           (M.m02 * M.m21 - M.m01 * M.m22) / M.det,
           (M.m01 * M.m12 - M.m02 * M.m11) / M.det,
           (M.m12 * M.m20 - M.m10 * M.m22) / M.det,
           (M.m00 * M.m22 - M.m02 * M.m20) / M.det,
           (M.m02 * M.m10 - M.m00 * M.m12) / M.det,
           (M.m10 * M.m21 - M.m11 * M.m20) / M.det,
           (M.m01 * M.m20 - M.m00 * M.m21) / M.det,
           (M.m00 * M.m11 - M.m01 * M.m10) / M.det⟩ := by
  unfold np_inv
  split
  · simp_all
  · simp_all [eq_comm]

/-- The matrix `np.linalg.inv` returns is a two-sided inverse. -/
theorem np_inv_mul (M N : Mat3) (h : np_inv M = some N) :
    M.mul N = Mat3.one ∧ N.mul M = Mat3.one := by
  rw [np_inv_eq_some_iff] at h
  obtain ⟨hdet, rfl⟩ := h
  constructor <;>
  · simp only [Mat3.mul, Mat3.one, Mat3.det] at *
    simp only [Mat3.mk.injEq]
    refine ⟨?_, ?_, ?_, ?_, ?_, ?_, ?_, ?_, ?_⟩ <;> (field_simp; ring_nf)

/-- Two-sided inverses are unique. -/
theorem Mat3.inverse_unique (A B C : Mat3)
    (hB : B.mul A = Mat3.one) (hC : A.mul C = Mat3.one) : B = C := by
  calc B = B.mul Mat3.one := (Mat3.mul_one B).symm
  _ = B.mul (A.mul C) := by rw [hC]
  _ = (B.mul A).mul C := (Mat3.mul_assoc B A C).symm
  _ = Mat3.one.mul C := by rw [hB]
  _ = C := Mat3.one_mul C

/-- Products of affine matrices are affine. -/
theorem Mat3.isAffine_mul (A B : Mat3) (hA : A.isAffine) (hB : B.isAffine) :
    (A.mul B).isAffine := by
  obtain ⟨ha0, ha1, ha2⟩ := hA
  obtain ⟨hb0, hb1, hb2⟩ := hB
  simp [Mat3.mul, Mat3.isAffine, ha0, ha1, ha2, hb0, hb1, hb2]

/-- The inverse of an affine matrix is affine. -/
theorem np_inv_isAffine (M N : Mat3) (h : np_inv M = some N)
    (hM : M.isAffine) : N.isAffine := by
  rw [np_inv_eq_some_iff] at h
  obtain ⟨hdet, rfl⟩ := h
  obtain ⟨h0, h1, h2⟩ := hM
  refine ⟨by simp [h0, h1], by simp [h0, h1], ?_⟩
  have hd : M.det = M.m00 * M.m11 - M.m01 * M.m10 := by
    simp [Mat3.det, h0, h1, h2]
  rw [← hd, div_self hdet]

theorem np_inv_eq_none_iff (M : Mat3) : np_inv M = none ↔ M.det = 0 := by
  unfold np_inv
  split <;> simp_all

theorem np_inv_one : np_inv Mat3.one = some Mat3.one := by
  simp only [np_inv, Mat3.one, Mat3.det]
  norm_num

/-- Successful runs of the composition block determine the two computed
inverses and express the result. -/
theorem align_ok_elim (w d c r : Mat3)
    (h : align_two_rasters_math w d (some c) = .ok r) :
    ∃ dinv w2dinv, np_inv d = some dinv ∧ np_inv (dinv.mul w) = some w2dinv ∧
      r = d.mul (((dinv.mul w).mul c).mul w2dinv) := by
  unfold align_two_rasters_math at h
  rcases hdi : np_inv d with _ | dinv
  · simp [hdi] at h
  · rw [hdi] at h
    simp only at h
    rcases hwi : np_inv (dinv.mul w) with _ | w2dinv
    · simp [hwi] at h
    · rw [hwi] at h
      simp only [Except.ok.injEq] at h
      refine ⟨dinv, w2dinv, ?_, ?_, h.symm⟩ <;> first | rfl | assumption

/-- In the other direction, the two inverses determine the run. -/
theorem align_eq_of_inv (w d c dinv w2dinv : Mat3)
    (h1 : np_inv d = some dinv) (h2 : np_inv (dinv.mul w) = some w2dinv) :
    align_two_rasters_math w d (some c) =
      .ok (d.mul (((dinv.mul w).mul c).mul w2dinv)) := by
  unfold align_two_rasters_math
  rw [h1]
  simp only
  rw [h2]

/-- A successful `datasetPixelCorrection` determines the computed inverses. -/
theorem datasetPixelCorrection_some_elim (w d c corr : Mat3)
    (h : datasetPixelCorrection w d c = some corr) :
    ∃ dinv w2dinv, np_inv d = some dinv ∧ np_inv (dinv.mul w) = some w2dinv ∧
      corr = ((dinv.mul w).mul c).mul w2dinv := by
  unfold datasetPixelCorrection at h
  rcases hdi : np_inv d with _ | dinv
  · simp [hdi] at h
  · rw [hdi] at h
    simp only at h
    rcases hwi : np_inv (dinv.mul w) with _ | w2dinv
    · simp [hwi] at h
    · rw [hwi] at h
      simp only [Option.some.injEq] at h
      refine ⟨dinv, w2dinv, ?_, ?_, h.symm⟩ <;> first | rfl | assumption

/-! Claim theorems. -/

/-- C1: for every successful registration call, the dataset-pixel-space
correction computed by `align_two_rasters` is the conjugation
`w2d_px_transform @ chip2chip @ inv(w2d_px_transform)`, where
`w2d_px_transform = inv(moving_dataset_transform) @ moving_window_transform`
and the inverses are genuine two-sided matrix inverses; the call returns the
dataset transform composed with exactly this correction. -/
theorem datasetPixelCorrection_conjugation (w d c corr dinv w2dinv : Mat3)
    (hcorr : datasetPixelCorrection w d c = some corr)
    (hd1 : d.mul dinv = Mat3.one) (hd2 : dinv.mul d = Mat3.one)
    (hw1 : (dinv.mul w).mul w2dinv = Mat3.one)
    (hw2 : w2dinv.mul (dinv.mul w) = Mat3.one) :
    corr = ((dinv.mul w).mul c).mul w2dinv ∧
      align_two_rasters_math w d (some c) = .ok (d.mul corr) := by
  obtain ⟨di, wi, hdi, hwi, hc⟩ := datasetPixelCorrection_some_elim w d c corr hcorr
  obtain ⟨hda, hdb⟩ := np_inv_mul d di hdi
  have hd : dinv = di := Mat3.inverse_unique d dinv di hd2 hda
  subst hd
  obtain ⟨hwa, hwb⟩ := np_inv_mul (dinv.mul w) wi hwi
  have hw : w2dinv = wi := Mat3.inverse_unique (dinv.mul w) w2dinv wi hw2 hwa
  subst hw
  exact ⟨hc, hc ▸ align_eq_of_inv w d c dinv w2dinv hdi hwi⟩

/-- C1 witness at the all-identity input. -/
theorem datasetPixelCorrection_conjugation_witness :
    datasetPixelCorrection Mat3.one Mat3.one Mat3.one = some Mat3.one ∧
      Mat3.one.mul Mat3.one = Mat3.one ∧
      (Mat3.one = ((Mat3.one.mul Mat3.one).mul Mat3.one).mul Mat3.one ∧
        align_two_rasters_math Mat3.one Mat3.one (some Mat3.one) =
          .ok (Mat3.one.mul Mat3.one)) :=
  ⟨by simp [datasetPixelCorrection, Mat3.mul_one, np_inv_one],
   Mat3.mul_one Mat3.one,
   datasetPixelCorrection_conjugation Mat3.one Mat3.one Mat3.one Mat3.one
     Mat3.one Mat3.one
     (by simp [datasetPixelCorrection, Mat3.mul_one, np_inv_one])
     (Mat3.mul_one Mat3.one) (Mat3.mul_one Mat3.one)
     (by simp [Mat3.mul_one]) (by simp [Mat3.mul_one])⟩

/-- C2: every successful registration call returns the moving raster's
dataset-pixel-to-world transform left-multiplied onto the dataset-pixel-space
correction of lines 147-152. -/
theorem align_result_left_mul_correction (w d c r : Mat3)
    (h : align_two_rasters_math w d (some c) = .ok r) :
    ∃ corr, datasetPixelCorrection w d c = some corr ∧ r = d.mul corr := by
  obtain ⟨dinv, w2dinv, hdi, hwi, hr⟩ := align_ok_elim w d c r h
  refine ⟨((dinv.mul w).mul c).mul w2dinv, ?_, hr⟩
  unfold datasetPixelCorrection
  rw [hdi]
  simp only
  rw [hwi]

/-- C2 witness at the all-identity input. -/
theorem align_result_left_mul_correction_witness :
    align_two_rasters_math Mat3.one Mat3.one (some Mat3.one) = .ok Mat3.one ∧
      (∃ corr, datasetPixelCorrection Mat3.one Mat3.one Mat3.one = some corr ∧
        Mat3.one = Mat3.one.mul corr) :=
  ⟨by simp [align_two_rasters_math, Mat3.mul_one, np_inv_one],
   align_result_left_mul_correction Mat3.one Mat3.one Mat3.one Mat3.one
     (by simp [align_two_rasters_math, Mat3.mul_one, np_inv_one])⟩

/-- C3 counterexample: with exactly `min_match_count` surviving
correspondences (at least the default minimum of ten) the matcher returns
`None` instead of proceeding to the fitting step, because the source guards
the fit with the strict comparison `len(good) > min_match_count`. -/
theorem cv2_feature_matcher_at_minimum :
    10 ≥ 10 ∧ cv2_feature_matcher 10 10 ⟨1, 0, 0, 0, 1, 0⟩ = none :=
  ⟨le_refl 10, rfl⟩

/-- C3 amended: the matcher fails whenever at most `min_match_count`
correspondences survive the ratio test, and proceeds to the fitting step
exactly when strictly more survive. -/
theorem cv2_feature_matcher_matches_threshold (good min_match_count : ℕ)
    (fit : Aff2) :
    (good ≤ min_match_count →
      cv2_feature_matcher good min_match_count fit = none) ∧
    (min_match_count < good →
      cv2_feature_matcher good min_match_count fit = some (embed_affine fit)) := by
  refine ⟨fun h => ?_, fun h => ?_⟩
  · unfold cv2_feature_matcher
    rw [if_neg (Nat.not_lt.mpr h)]
  · unfold cv2_feature_matcher
    rw [if_pos h]

/-- C3 amended witness: five matches fail against a minimum of ten, eleven
succeed. -/
theorem cv2_feature_matcher_matches_threshold_witness :
    cv2_feature_matcher 5 10 ⟨1, 0, 0, 0, 1, 0⟩ = none ∧
      cv2_feature_matcher 11 10 ⟨1, 0, 0, 0, 1, 0⟩ =
        some (embed_affine ⟨1, 0, 0, 0, 1, 0⟩) :=
  ⟨(cv2_feature_matcher_matches_threshold 5 10 ⟨1, 0, 0, 0, 1, 0⟩).1 (by decide),
   (cv2_feature_matcher_matches_threshold 11 10 ⟨1, 0, 0, 0, 1, 0⟩).2 (by decide)⟩

/-- C4: when the aligner returns the identity transform and the window grid
coincides with the moving dataset's native pixel grid (the window transform
equals the dataset transform), the corrected dataset-to-world transform is
the moving raster's original one. -/
theorem align_identity_is_fixed_point (d : Mat3) (hdet : d.det ≠ 0) :
    align_two_rasters_math d d (some Mat3.one) = .ok d := by
  unfold align_two_rasters_math
  rcases hdi : np_inv d with _ | dinv
  · exact absurd ((np_inv_eq_none_iff d).mp hdi) hdet
  · obtain ⟨h1, h2⟩ := np_inv_mul d dinv hdi
    simp only [h2, np_inv_one, Mat3.one_mul, Mat3.mul_one]

/-- C4 witness: a concrete invertible dataset transform. -/
theorem align_identity_is_fixed_point_witness :
    Mat3.det ⟨2, 0, 3, 0, 2, 4, 0, 0, 1⟩ ≠ 0 ∧
      align_two_rasters_math ⟨2, 0, 3, 0, 2, 4, 0, 0, 1⟩
        ⟨2, 0, 3, 0, 2, 4, 0, 0, 1⟩ (some Mat3.one) =
        .ok ⟨2, 0, 3, 0, 2, 4, 0, 0, 1⟩ :=
  ⟨by norm_num [Mat3.det],
   align_identity_is_fixed_point ⟨2, 0, 3, 0, 2, 4, 0, 0, 1⟩
     (by norm_num [Mat3.det])⟩

/-- C5 counterexample: at a concrete input on which the aligner failed, the
composition block aborts with the `TypeError` raised by multiplying with
`None`, not with a propagated typed alignment failure. -/
theorem align_none_raises_type_error :
    align_two_rasters_math Mat3.one Mat3.one none = .error RegErr.typeErrorNone ∧
      align_two_rasters_math Mat3.one Mat3.one none ≠
        .error RegErr.alignmentFailure := by
  have h1 : align_two_rasters_math Mat3.one Mat3.one none =
      .error RegErr.typeErrorNone := by
    simp [align_two_rasters_math, np_inv_one]
  refine ⟨h1, fun h => ?_⟩
  rw [h1] at h
  injection h with h2
  exact RegErr.noConfusion h2

/-- C5 amended: when the aligner fails, `align_two_rasters` never returns a
transform and aborts with a raised exception — the singular-matrix error if
the dataset transform is not invertible, and otherwise the `TypeError` from
composing with `None`; the failure is not converted into a typed
registration-failure value. -/
theorem align_none_never_returns_transform (w d : Mat3) :
    align_two_rasters_math w d none = .error RegErr.linAlgSingular ∨
      align_two_rasters_math w d none = .error RegErr.typeErrorNone := by
  unfold align_two_rasters_math
  rcases hdi : np_inv d with _ | dinv
  · exact Or.inl rfl
  · exact Or.inr rfl

/-- C6: when the moving chip's window-to-dataset-pixel transform is singular,
the composition block aborts with the singular-matrix error raised by
`np.linalg.inv` and performs no further composition. -/
theorem align_singular_window_fails (w d c dinv : Mat3)
    (hdi : np_inv d = some dinv) (hsing : (dinv.mul w).det = 0) :
    align_two_rasters_math w d (some c) = .error RegErr.linAlgSingular := by
  unfold align_two_rasters_math
  rw [hdi]
  simp only
  rw [(np_inv_eq_none_iff (dinv.mul w)).mpr hsing]

/-- C6 witness: a zero-area window transform against the identity dataset
transform. -/
theorem align_singular_window_fails_witness :
    np_inv Mat3.one = some Mat3.one ∧
      (Mat3.one.mul ⟨0, 0, 0, 0, 0, 0, 0, 0, 1⟩).det = 0 ∧
      align_two_rasters_math ⟨0, 0, 0, 0, 0, 0, 0, 0, 1⟩ Mat3.one
        (some Mat3.one) = .error RegErr.linAlgSingular :=
  ⟨np_inv_one, by norm_num [Mat3.mul, Mat3.det, Mat3.one],
   align_singular_window_fails ⟨0, 0, 0, 0, 0, 0, 0, 0, 1⟩ Mat3.one Mat3.one
     Mat3.one np_inv_one (by norm_num [Mat3.mul, Mat3.det, Mat3.one])⟩

/-- C7: the working CRS is the fixed raster's native CRS when that CRS is
projected and otherwise the CRS computed from the fixed raster's transform
origin, and both crop-extraction calls receive this same target CRS and the
same target GSD. -/
theorem working_CRS_shared (fixed_filename moving_filename roi : ℕ)
    (fixed : FixedDatasetInfo) (gsd : Option ℚ) :
    (align_crop_calls fixed_filename moving_filename roi fixed gsd).1.target_CRS
        = choose_working_CRS fixed ∧
      (align_crop_calls fixed_filename moving_filename roi fixed gsd).2.target_CRS
        = choose_working_CRS fixed ∧
      (align_crop_calls fixed_filename moving_filename roi fixed gsd).1.target_GSD
        = gsd ∧
      (align_crop_calls fixed_filename moving_filename roi fixed gsd).2.target_GSD
        = gsd ∧
      (fixed.crs.is_projected = true →
        choose_working_CRS fixed = .native fixed.crs) ∧
      (fixed.crs.is_projected = false →
        choose_working_CRS fixed =
          .projectedFrom fixed.transform.c fixed.transform.f) := by
  refine ⟨rfl, rfl, rfl, rfl, fun h => ?_, fun h => ?_⟩ <;>
    simp [choose_working_CRS, h]

/-- C7 witness: a non-projected fixed CRS with origin (100, 200). -/
theorem working_CRS_shared_witness :
    choose_working_CRS ⟨⟨false, 7⟩, ⟨1, 0, 100, 0, 1, 200⟩⟩ =
        .projectedFrom 100 200 ∧
      (align_crop_calls 0 1 2 ⟨⟨false, 7⟩, ⟨1, 0, 100, 0, 1, 200⟩⟩
        (some 1)).1.target_CRS =
        choose_working_CRS ⟨⟨false, 7⟩, ⟨1, 0, 100, 0, 1, 200⟩⟩ :=
  ⟨(working_CRS_shared 0 1 2 ⟨⟨false, 7⟩, ⟨1, 0, 100, 0, 1, 200⟩⟩
      (some 1)).2.2.2.2.2 rfl,
   (working_CRS_shared 0 1 2 ⟨⟨false, 7⟩, ⟨1, 0, 100, 0, 1, 200⟩⟩ (some 1)).1⟩

/-- C8: the matcher only ever returns matrices with bottom row `[0, 0, 1]`,
and the corrected dataset-to-world transform keeps that bottom row whenever
the loader-supplied transforms and the chip-to-chip transform have it. -/
theorem bottom_row_invariant :
    (∀ good min_match_count fit M,
      cv2_feature_matcher good min_match_count fit = some M → M.isAffine) ∧
    (∀ w d c r, w.isAffine → d.isAffine → c.isAffine →
      align_two_rasters_math w d (some c) = .ok r → r.isAffine) := by
  constructor
  · intro good minc fit M hM
    unfold cv2_feature_matcher at hM
    split at hM
    · injection hM with h
      exact h ▸ ⟨rfl, rfl, rfl⟩
    · exact Option.noConfusion hM
  · intro w d c r hw hd hc hr
    obtain ⟨dinv, w2dinv, hdi, hwi, rfl⟩ := align_ok_elim w d c r hr
    have hdinv := np_inv_isAffine d dinv hdi hd
    have hw2d := Mat3.isAffine_mul dinv w hdinv hw
    have hw2dinv := np_inv_isAffine (dinv.mul w) w2dinv hwi hw2d
    exact Mat3.isAffine_mul _ _ hd
      (Mat3.isAffine_mul _ _ (Mat3.isAffine_mul _ _ hw2d hc) hw2dinv)

/-- C8 witness: the embedded fit of a successful match and the result of an
all-identity run are affine. -/
theorem bottom_row_invariant_witness :
    (embed_affine ⟨1, 0, 0, 0, 1, 0⟩).isAffine ∧ Mat3.one.isAffine :=
  ⟨bottom_row_invariant.1 11 10 ⟨1, 0, 0, 0, 1, 0⟩
     (embed_affine ⟨1, 0, 0, 0, 1, 0⟩) rfl,
   bottom_row_invariant.2 Mat3.one Mat3.one Mat3.one Mat3.one
     ⟨rfl, rfl, rfl⟩ ⟨rfl, rfl, rfl⟩ ⟨rfl, rfl, rfl⟩
     (by simp [align_two_rasters_math, Mat3.mul_one, np_inv_one])⟩

/-- C9: when an output path is given and the moving raster exists, the
writer copies the moving raster to the output path only when nothing exists
there, then overwrites only the georeferencing transform with the top two
rows of the corrected matrix; all other paths, the pixel payload and the
remaining metadata are untouched, and a second invocation with the same path
changes nothing further. -/
theorem write_output_frame (fs : ℕ → Option RasterFile)
    (moving_filename output_filename : ℕ) (updated : Mat3) (r : RasterFile)
    (hmov : fs moving_filename = some r) :
    ∃ fs2, write_output fs moving_filename output_filename updated = some fs2 ∧
      (∀ p, p ≠ output_filename → fs2 p = fs p) ∧
      (fs output_filename = none →
        fs2 output_filename = some ⟨r.pixels, r.meta, topTwoRows updated⟩) ∧
      (∀ r0, fs output_filename = some r0 →
        fs2 output_filename = some ⟨r0.pixels, r0.meta, topTwoRows updated⟩) ∧
      (∀ fs3, write_output fs2 moving_filename output_filename updated = some fs3 →
        ∀ p, fs3 p = fs2 p) := by
  rcases hout : fs output_filename with _ | r0
  · refine ⟨fun p => if p = output_filename
        then some ⟨r.pixels, r.meta, topTwoRows updated⟩
        else if p = output_filename then some r else fs p,
      ?_, ?_, ?_, ?_, ?_⟩
    · unfold write_output
      rw [hout, hmov]
      simp only [Option.isSome_none, Bool.false_eq_true, if_false, if_true]
    · intro p hp
      simp [hp]
    · intro _
      simp
    · intro r0 h0
      exact Option.noConfusion h0
    · intro fs3 h3 p
      unfold write_output at h3
      simp only [Option.isSome_some, if_true, Option.some.injEq] at h3
      subst h3
      by_cases hp : p = output_filename <;> simp [hp]
  · refine ⟨fun p => if p = output_filename
        then some ⟨r0.pixels, r0.meta, topTwoRows updated⟩ else fs p,
      ?_, ?_, ?_, ?_, ?_⟩
    · unfold write_output
      rw [hout]
      simp only [Option.isSome_some, if_true]
      rw [hout]
    · intro p hp
      simp [hp]
    · intro h0
      exact Option.noConfusion h0
    · intro r1 h1
      injection h1 with h1
      subst h1
      simp
    · intro fs3 h3 p
      unfold write_output at h3
      simp only [Option.isSome_some, if_true, Option.some.injEq] at h3
      subst h3
      by_cases hp : p = output_filename <;> simp [hp]

/-- C9 witness: a filesystem holding only the moving raster at path 0,
written to the fresh path 1. -/
theorem write_output_frame_witness :
    (fun p : ℕ => if p = 0
        then some (⟨5, 6, ⟨1, 0, 0, 0, 1, 0⟩⟩ : RasterFile) else none) 0 =
      some ⟨5, 6, ⟨1, 0, 0, 0, 1, 0⟩⟩ ∧
    (∃ fs2, write_output
        (fun p : ℕ => if p = 0
          then some (⟨5, 6, ⟨1, 0, 0, 0, 1, 0⟩⟩ : RasterFile) else none)
        0 1 Mat3.one = some fs2 ∧
      (∀ p, p ≠ 1 → fs2 p =
        (fun p : ℕ => if p = 0
          then some (⟨5, 6, ⟨1, 0, 0, 0, 1, 0⟩⟩ : RasterFile) else none) p) ∧
      ((fun p : ℕ => if p = 0
          then some (⟨5, 6, ⟨1, 0, 0, 0, 1, 0⟩⟩ : RasterFile) else none) 1 =
            none →
        fs2 1 = some ⟨5, 6, topTwoRows Mat3.one⟩) ∧
      (∀ r0, (fun p : ℕ => if p = 0
          then some (⟨5, 6, ⟨1, 0, 0, 0, 1, 0⟩⟩ : RasterFile) else none) 1 =
            some r0 →
        fs2 1 = some ⟨r0.pixels, r0.meta, topTwoRows Mat3.one⟩) ∧
      (∀ fs3, write_output fs2 0 1 Mat3.one = some fs3 → ∀ p, fs3 p = fs2 p)) :=
  ⟨rfl,
   write_output_frame
     (fun p : ℕ => if p = 0
       then some (⟨5, 6, ⟨1, 0, 0, 0, 1, 0⟩⟩ : RasterFile) else none)
     0 1 Mat3.one ⟨5, 6, ⟨1, 0, 0, 0, 1, 0⟩⟩ rfl⟩

/-- C10: when the fixed raster's CRS is not projected, the fallback working
CRS is requested with the `lat` argument bound to transform coefficient `c`
(the x/easting translation) and the `lon` argument bound to coefficient `f`
(the y/northing translation). -/
theorem fallback_CRS_swaps_lat_lon (fixed : FixedDatasetInfo)
    (h : fixed.crs.is_projected = false) :
    choose_working_CRS fixed =
      .projectedFrom fixed.transform.c fixed.transform.f := by
  simp [choose_working_CRS, h]

/-- C10 witness: a geographic fixed CRS whose transform has x offset 11 and
y offset 22. -/
theorem fallback_CRS_swaps_lat_lon_witness :
    (⟨⟨false, 3⟩, ⟨2, 0, 11, 0, 2, 22⟩⟩ : FixedDatasetInfo).crs.is_projected
        = false ∧
      choose_working_CRS ⟨⟨false, 3⟩, ⟨2, 0, 11, 0, 2, 22⟩⟩ =
        .projectedFrom 11 22 :=
  ⟨rfl, fallback_CRS_swaps_lat_lon ⟨⟨false, 3⟩, ⟨2, 0, 11, 0, 2, 22⟩⟩ rfl⟩

end GDRT
